import Mathlib

/-!
Verification of the Windows runner bootstrapper
(`Project/windows/runner/main.cpp`, function `wWinMain`).

The bootstrapper is straight-line code whose behaviour depends on a few
environment facts: the process argument list, whether attaching to the
parent console succeeds, whether a debugger is present, whether host
window construction succeeds, and which window handle the created window
reports.  We embed it as a pure function from that environment to the
ordered trace of external effects it performs together with the process
exit status.
-/

namespace EasyGUIFlashTool

/-- One external effect performed by `wWinMain`, in source order. -/
inductive Action where
  /-- `::AttachConsole(ATTACH_PARENT_PROCESS)` succeeded. -/
  | attachConsole
  /-- `freopen_s(&unused, "CONOUT$", "w", stdout)`. -/
  | reopenStdout
  /-- `freopen_s(&unused, "CONOUT$", "w", stderr)`. -/
  | reopenStderr
  /-- `std::ios::sync_with_stdio()`. -/
  | syncWithStdio
  /-- `FlutterDesktopResyncOutputStreams()`. -/
  | resyncOutputStreams
  /-- `CreateAndAttachConsole()`. -/
  | createAndAttachConsole
  /-- `::CoInitializeEx(nullptr, COINIT_APARTMENTTHREADED)`. -/
  | comInit
  /-- `project.set_dart_entrypoint_arguments(std::move(command_line_arguments))`. -/
  | setDartEntrypointArguments (args : List String)
  /-- `window.Create(L"EasyGUIFlashTool", origin, size)` with the given
  title, origin `(x, y)` and size `(w, h)`. -/
  | createWindow (title : String) (x y w h : Nat)
  /-- `::ShowWindow(hwnd, cmd)`. -/
  | showWindow (hwnd : Nat) (cmd : Nat)
  /-- `window.SetQuitOnClose(true)`. -/
  | setQuitOnClose (b : Bool)
  /-- The blocking `GetMessage`/`TranslateMessage`/`DispatchMessage` loop,
  run until a quit message is retrieved. -/
  | messageLoop
  /-- `::CoUninitialize()`. -/
  | comUninit
  deriving DecidableEq, Repr

/-- The environment facts `wWinMain` branches on: the invocation argument
list returned by `GetCommandLineArguments()`, the results of the
`AttachConsole`, `IsDebuggerPresent` and `window.Create` platform calls,
and the handle reported by `window.GetHandle()` (`none` models a null
`HWND`). -/
structure Env where
  commandLineArguments : List String
  attachConsoleSucceeds : Bool
  debuggerPresent : Bool
  windowCreateSucceeds : Bool
  windowHandle : Option Nat
  deriving DecidableEq, Repr

/-- `SW_HIDE` show-command constant. -/
def SW_HIDE : Nat := 0

/-- `EXIT_SUCCESS` from the C standard library. -/
def EXIT_SUCCESS : Int := 0

/-- `EXIT_FAILURE` from the C standard library. -/
def EXIT_FAILURE : Int := 1

/-- `bool has_cli_args = !command_line_arguments.empty();`. -/
def has_cli_args (env : Env) : Bool :=
  !env.commandLineArguments.isEmpty

/-- Shallow embedding of `wWinMain`: the ordered trace of external effects
and the returned process exit status, as a function of the environment. -/
def wWinMain (env : Env) : List Action × Int :=
  let command_line_arguments := env.commandLineArguments
  let consoleSteps : List Action :=
    if env.attachConsoleSucceeds then
      [.attachConsole, .reopenStdout, .reopenStderr, .syncWithStdio,
       .resyncOutputStreams]
    else if has_cli_args env || env.debuggerPresent then
      [.createAndAttachConsole]
    else
      []
  let startupSteps : List Action :=
    consoleSteps ++
      [.comInit,
       .setDartEntrypointArguments command_line_arguments,
       .createWindow "EasyGUIFlashTool" 10 10 1280 720]
  if !env.windowCreateSucceeds then
    (startupSteps, EXIT_FAILURE)
  else
    let hideSteps : List Action :=
      if has_cli_args env then
        match env.windowHandle with
        | some hwnd => [.showWindow hwnd SW_HIDE]
        | none => []
      else
        []
    (startupSteps ++ hideSteps ++ [.setQuitOnClose true, .messageLoop, .comUninit],
     EXIT_SUCCESS)

/-- Console-subsystem effects: everything step 2 of the bootstrap may do. -/
def isConsoleAction : Action → Bool
  | .attachConsole => true
  | .reopenStdout => true
  | .reopenStderr => true
  | .syncWithStdio => true
  | .resyncOutputStreams => true
  | .createAndAttachConsole => true
  | _ => false

/-- Recognizes the argument-forwarding effect. -/
def isSetArgs : Action → Bool
  | .setDartEntrypointArguments _ => true
  | _ => false

/-- Recognizes the window-construction effect. -/
def isCreateWindow : Action → Bool
  | .createWindow _ _ _ _ _ => true
  | _ => false

/-- Recognizes a `ShowWindow` call. -/
def isShowWindow : Action → Bool
  | .showWindow _ _ => true
  | _ => false

/-- The tail of the trace strictly after the argument list is moved into
the runtime configuration. -/
def afterArgsMove : List Action → List Action
  | [] => []
  | .setDartEntrypointArguments _ :: rest => rest
  | _ :: rest => afterArgsMove rest

/-- C5: the full process argument sequence is transferred into the embedded
runtime's entrypoint arguments exactly once, unmodified and in order: in
every environment, the argument-forwarding effects of the trace are exactly
one `setDartEntrypointArguments` carrying the invocation argument list
verbatim. -/
theorem C5_args_forwarded_verbatim (env : Env) :
    ((wWinMain env).1.filter isSetArgs) =
      [Action.setDartEntrypointArguments env.commandLineArguments] := by
  obtain ⟨args, attach, debug, create, hwnd⟩ := env
  cases attach <;> cases debug <;> cases create <;> cases hwnd <;> cases args <;>
    simp [wWinMain, has_cli_args, isSetArgs]

/-- C8: in every environment, the host window is created with the fixed
title "EasyGUIFlashTool", fixed origin (10,10) and fixed size 1280×720, and
no other window creation happens; the creation parameters are the same
constant list independent of the environment. -/
theorem C8_fixed_window_geometry (env : Env) :
    ((wWinMain env).1.filter isCreateWindow) =
      [Action.createWindow "EasyGUIFlashTool" 10 10 1280 720] := by
  obtain ⟨args, attach, debug, create, hwnd⟩ := env
  cases attach <;> cases debug <;> cases create <;> cases hwnd <;> cases args <;>
    simp [wWinMain, has_cli_args, isCreateWindow]

/-- C1: the console attachment decision is a three-way mutually exclusive
branch.  If attaching to the parent console succeeds, the bootstrapper
attaches, redirects stdout and stderr, resynchronizes the runtime output
streams, and never allocates a new console.  Only when the attach fails is
a new console allocated, and then exactly when `has_cli_args` is true or a
debugger is present; otherwise no console effect occurs at all. -/
theorem C1_console_three_way (env : Env) :
    (env.attachConsoleSucceeds = true →
      Action.attachConsole ∈ (wWinMain env).1 ∧
      Action.reopenStdout ∈ (wWinMain env).1 ∧
      Action.reopenStderr ∈ (wWinMain env).1 ∧
      Action.syncWithStdio ∈ (wWinMain env).1 ∧
      Action.resyncOutputStreams ∈ (wWinMain env).1 ∧
      Action.createAndAttachConsole ∉ (wWinMain env).1) ∧
    (env.attachConsoleSucceeds = false →
      (has_cli_args env || env.debuggerPresent) = true →
      Action.createAndAttachConsole ∈ (wWinMain env).1 ∧
      Action.attachConsole ∉ (wWinMain env).1) ∧
    (env.attachConsoleSucceeds = false →
      (has_cli_args env || env.debuggerPresent) = false →
      (wWinMain env).1.filter isConsoleAction = []) := by
  obtain ⟨args, attach, debug, create, hwnd⟩ := env
  cases attach <;> cases debug <;> cases create <;> cases hwnd <;> cases args <;>
    simp [wWinMain, has_cli_args, isConsoleAction]

/-- C1 witness: with a parent console available, the attach branch runs and
no new console is allocated. -/
theorem C1_console_three_way_witness :
    Action.attachConsole ∈ (wWinMain (Env.mk ["--flash"] true false true (some 7))).1 ∧
    Action.createAndAttachConsole ∉
      (wWinMain (Env.mk ["--flash"] true false true (some 7))).1 :=
  ⟨((C1_console_three_way (Env.mk ["--flash"] true false true (some 7))).1 rfl).1,
   ((C1_console_three_way (Env.mk ["--flash"] true false true (some 7))).1 rfl).2.2.2.2.2⟩

/-- C2: whenever host window construction fails, the bootstrapper returns
the failure exit status, the message loop never runs, the
window-visibility step is skipped, and the component-subsystem teardown is
skipped. -/
theorem C2_window_create_failure (env : Env)
    (h : env.windowCreateSucceeds = false) :
    (wWinMain env).2 = EXIT_FAILURE ∧
    Action.messageLoop ∉ (wWinMain env).1 ∧
    (wWinMain env).1.filter isShowWindow = [] ∧
    Action.comUninit ∉ (wWinMain env).1 := by
  obtain ⟨args, attach, debug, create, hwnd⟩ := env
  subst h
  cases attach <;> cases debug <;> cases hwnd <;> cases args <;>
    simp [wWinMain, has_cli_args, isShowWindow]

/-- C2 witness: concrete failing construction with CLI arguments. -/
theorem C2_window_create_failure_witness :
    (wWinMain (Env.mk ["--flash"] false false false none)).2 = EXIT_FAILURE ∧
    Action.messageLoop ∉ (wWinMain (Env.mk ["--flash"] false false false none)).1 :=
  ⟨(C2_window_create_failure (Env.mk ["--flash"] false false false none) rfl).1,
   (C2_window_create_failure (Env.mk ["--flash"] false false false none) rfl).2.1⟩

/-- C3: the claim that the component subsystem is uninitialized on every
return path fails on the code.  At the concrete environment in which
window construction fails, the bootstrapper returns the failure status
while the trace contains `comInit` but no `comUninit`: the early-return
path skips the teardown. -/
theorem C3_missing_teardown_on_failure_path :
    (wWinMain (Env.mk [] true false false none)).2 = EXIT_FAILURE ∧
    Action.comInit ∈ (wWinMain (Env.mk [] true false false none)).1 ∧
    Action.comUninit ∉ (wWinMain (Env.mk [] true false false none)).1 := by
  decide

/-- C4: with a non-empty argument list and successful window construction,
the created window is hidden via `ShowWindow(hwnd, SW_HIDE)` on its
retrieved handle but remains alive: the bootstrapper performs no further
window effect other than hiding, still configures quit-on-close and runs
the message loop on it.  With an empty argument list the bootstrapper
issues no `ShowWindow` call at all, leaving the visibility unaltered. -/
theorem C4_cli_window_hidden_but_alive (env : Env)
    (hcreate : env.windowCreateSucceeds = true) :
    (has_cli_args env = true →
      (∀ hwnd, env.windowHandle = some hwnd →
        Action.showWindow hwnd SW_HIDE ∈ (wWinMain env).1) ∧
      Action.setQuitOnClose true ∈ (wWinMain env).1 ∧
      Action.messageLoop ∈ (wWinMain env).1) ∧
    (has_cli_args env = false →
      (wWinMain env).1.filter isShowWindow = []) := by
  obtain ⟨args, attach, debug, create, hwnd⟩ := env
  subst hcreate
  cases attach <;> cases debug <;> cases hwnd <;> cases args <;>
    simp [wWinMain, has_cli_args, isShowWindow, SW_HIDE]

/-- C4 witness: CLI invocation with handle 7 hides the window and still
runs the message loop. -/
theorem C4_cli_window_hidden_but_alive_witness :
    Action.showWindow 7 SW_HIDE ∈
      (wWinMain (Env.mk ["--flash", "device1"] true false true (some 7))).1 ∧
    Action.messageLoop ∈
      (wWinMain (Env.mk ["--flash", "device1"] true false true (some 7))).1 :=
  ⟨(((C4_cli_window_hidden_but_alive
        (Env.mk ["--flash", "device1"] true false true (some 7)) rfl).1 rfl).1 7 rfl),
   ((C4_cli_window_hidden_but_alive
        (Env.mk ["--flash", "device1"] true false true (some 7)) rfl).1 rfl).2.2⟩

/-- C6: `has_cli_args` is exactly "the invocation argument list is
non-empty", and whenever the argument list is non-empty and the
parent-console attach fails, a new console is allocated and attached. -/
theorem C6_has_cli_args_and_new_console (env : Env) :
    (has_cli_args env = true ↔ env.commandLineArguments ≠ []) ∧
    (env.commandLineArguments ≠ [] →
      env.attachConsoleSucceeds = false →
      Action.createAndAttachConsole ∈ (wWinMain env).1) := by
  obtain ⟨args, attach, debug, create, hwnd⟩ := env
  cases attach <;> cases debug <;> cases create <;> cases hwnd <;> cases args <;>
    simp [wWinMain, has_cli_args]

/-- C6 witness: a standalone CLI invocation allocates a new console. -/
theorem C6_has_cli_args_and_new_console_witness :
    Action.createAndAttachConsole ∈
      (wWinMain (Env.mk ["--flash"] false false true none)).1 :=
  (C6_has_cli_args_and_new_console (Env.mk ["--flash"] false false true none)).2
    (by simp) rfl

/-- C7: the exit status is `EXIT_SUCCESS` (0) exactly when the message loop
ran to a normal quit, `EXIT_FAILURE` exactly when window construction
failed, and no other status is ever produced. -/
theorem C7_exit_status (env : Env) :
    ((wWinMain env).2 = EXIT_SUCCESS ↔ Action.messageLoop ∈ (wWinMain env).1) ∧
    ((wWinMain env).2 = EXIT_FAILURE ↔ env.windowCreateSucceeds = false) ∧
    ((wWinMain env).2 = EXIT_SUCCESS ∨ (wWinMain env).2 = EXIT_FAILURE) := by
  obtain ⟨args, attach, debug, create, hwnd⟩ := env
  cases attach <;> cases debug <;> cases create <;> cases hwnd <;> cases args <;>
    simp [wWinMain, has_cli_args, EXIT_SUCCESS, EXIT_FAILURE]

/-- C7 witness: a GUI invocation with successful construction exits 0. -/
theorem C7_exit_status_witness :
    (wWinMain (Env.mk [] false false true (some 7))).2 = EXIT_SUCCESS :=
  ((C7_exit_status (Env.mk [] false false true (some 7))).1).2 (by decide)

/-- C9: after the argument sequence is moved into the runtime
configuration, the bootstrapper never reads it again: replacing the
argument list by any other list with the same emptiness leaves the entire
trace after the move, and the exit status, unchanged. -/
theorem C9_args_not_read_after_move (env : Env) (args : List String)
    (h : args.isEmpty = env.commandLineArguments.isEmpty) :
    afterArgsMove (wWinMain { env with commandLineArguments := args }).1 =
      afterArgsMove (wWinMain env).1 ∧
    (wWinMain { env with commandLineArguments := args }).2 = (wWinMain env).2 := by
  obtain ⟨args0, attach, debug, create, hwnd⟩ := env
  cases attach <;> cases debug <;> cases create <;> cases hwnd <;>
    cases args0 <;> cases args <;>
    simp_all [wWinMain, has_cli_args, afterArgsMove]

/-- C9 witness: swapping one non-empty argument list for another changes
nothing after the move. -/
theorem C9_args_not_read_after_move_witness :
    afterArgsMove (wWinMain (Env.mk ["x", "y"] false false true (some 7))).1 =
      afterArgsMove (wWinMain (Env.mk ["--flash"] false false true (some 7))).1 :=
  (C9_args_not_read_after_move (Env.mk ["--flash"] false false true (some 7))
    ["x", "y"] rfl).1

/-- C10: in the CLI-mode hide step, the `ShowWindow` call is issued only
for a non-null retrieved handle: with a null handle no `ShowWindow` call
occurs in any environment, and when construction succeeded the
bootstrapper still continues normally to quit-on-close, the message loop
and the success exit. -/
theorem C10_null_handle_skips_hide (env : Env)
    (h : env.windowHandle = none) :
    (wWinMain env).1.filter isShowWindow = [] ∧
    (env.windowCreateSucceeds = true →
      Action.setQuitOnClose true ∈ (wWinMain env).1 ∧
      Action.messageLoop ∈ (wWinMain env).1 ∧
      (wWinMain env).2 = EXIT_SUCCESS) := by
  obtain ⟨args, attach, debug, create, hwnd⟩ := env
  subst h
  cases attach <;> cases debug <;> cases create <;> cases args <;>
    simp [wWinMain, has_cli_args, isShowWindow]

/-- C10 witness: CLI invocation whose created window reports a null handle
skips hiding and exits 0. -/
theorem C10_null_handle_skips_hide_witness :
    (wWinMain (Env.mk ["--flash"] false false true none)).1.filter isShowWindow = [] ∧
    (wWinMain (Env.mk ["--flash"] false false true none)).2 = EXIT_SUCCESS :=
  ⟨(C10_null_handle_skips_hide (Env.mk ["--flash"] false false true none) rfl).1,
   ((C10_null_handle_skips_hide (Env.mk ["--flash"] false false true none) rfl).2
      rfl).2.2⟩

end EasyGUIFlashTool
